import Mathlib

/-!
Verification development for the Tuya-3.5-Bulb controller (`bulb.py`).

The development embeds the repository's colour-state helper and command
dispatcher as executable Lean definitions and proves the specified
properties about them.

Modelling conventions:
* Python exceptions are modelled by `PyRes`: `.exn e` is a raised exception
  carrying a message, `.ok a` a normal result.
* The external `tinytuya` device collaborator is a record of per-call
  responses (`Device`); within one command run the device's responses are
  fixed.  Every operation returns a `RunResult`: the ordered list of device
  calls it issued, the user-facing messages it printed, and whether it
  returned normally or let an exception propagate to its caller.
* Machine floats in the colour conversion are modelled with exact rational
  arithmetic (`ℚ`); Python `int()` truncation is `ratTrunc`.  At every
  concrete input appearing in the claims the float computation of
  `colorsys` agrees with the exact rational value.
* Print strings are modelled up to formatting of interpolated values; the
  short validation messages are kept verbatim.
-/

/-- Result of a Python computation: a value or a raised exception. -/
inductive PyRes (α : Type) where
  | ok (a : α)
  | exn (e : String)
deriving DecidableEq

/-- An HSV reading as stored by the bulb: hue on a 0–360 scale, saturation
and value on a 0–1000 scale (integers; decoded JSON may in principle carry
any integers). -/
structure Hsv where
  h : Int
  s : Int
  v : Int
deriving DecidableEq

/-- The datapoint sub-map of a device status: the JSON colour field
`colour_data_v2`, the hex colour field `"24"`, and the mode field `"21"`.
Absent keys are `none`. -/
structure Dps where
  colour_data_v2 : Option String
  dp24 : Option String
  dp21 : Option String
deriving DecidableEq

/-- A device status: the `"dps"` key may itself be absent. -/
structure Status where
  dps : Option Dps
deriving DecidableEq

/-- Value written by `device.set_value`: a string or an integer. -/
inductive DVal where
  | str (s : String)
  | num (n : Int)
deriving DecidableEq

/-- One call issued to the external device collaborator. -/
inductive DeviceCall where
  | status
  | turnOn
  | turnOff
  | setValue (key : String) (val : DVal)
  | setBrightness (n : Int)
  | setColour (r g b : Int)
deriving DecidableEq

/- ## Hex-encoded HSV: `parse_colour_hex` / `format_hsv_to_hex` -/

/-- Value of one hex digit, as accepted by Python `int(_, 16)` (both
letter cases, via the usual code-point ranges); `none` for a
non-hex-digit character. -/
def hexVal (c : Char) : Option Nat :=
  if '0' ≤ c ∧ c ≤ '9' then some (c.toNat - 48)
  else if 'a' ≤ c ∧ c ≤ 'f' then some (c.toNat - 87)
  else if 'A' ≤ c ∧ c ≤ 'F' then some (c.toNat - 55)
  else none

/-- Accumulating hex parse of a digit string, the core of Python
`int(_, 16)` on a string of hex digits. -/
def hexAcc (acc : Nat) : List Char → Option Nat
  | [] => some acc
  | c :: cs =>
    match hexVal c with
    | some d => hexAcc (acc * 16 + d) cs
    | none => none

/-- `parse_colour_hex` (bulb.py lines 47–54): parse a 12-character hex
string into an HSV value, 4 hex digits per channel; raises on a wrong
length or a non-hex character (Python `int(_, 16)` is modelled on strings
of hex digits, which is the only shape the repository feeds it). -/
def parse_colour_hex (hex_str : String) : PyRes Hsv :=
  if hex_str.length ≠ 12 then .exn "Unexpected hex colour length"
  else
    match hexAcc 0 (hex_str.data.take 4),
          hexAcc 0 ((hex_str.data.drop 4).take 4),
          hexAcc 0 ((hex_str.data.drop 8).take 4) with
    | some hue, some sat, some val => .ok ⟨(hue : Int), (sat : Int), (val : Int)⟩
    | _, _, _ => .exn "invalid literal for int with base 16"

/-- Hex digits of `n`, most significant first, no leading zeros (`[0]` for
zero); the fuel argument only bounds the recursion and is irrelevant once
it exceeds `n`. -/
def toHexAux : Nat → Nat → List Char
  | 0, _ => []
  | fuel + 1, n =>
    if n < 16 then [Nat.digitChar n]
    else toHexAux fuel (n / 16) ++ [Nat.digitChar (n % 16)]

/-- Hex representation of a natural number, lowercase, no leading zeros. -/
def natToHex (n : Nat) : List Char :=
  toHexAux (n + 1) n

/-- Left-pad a digit list with `'0'` to at least four characters, the
`04` width specifier of Python `f"{x:04x}"`. -/
def pad04 (l : List Char) : List Char :=
  List.replicate (4 - l.length) '0' ++ l

/-- `format_hsv_to_hex` (bulb.py lines 56–58): render integer HSV values
as a 12-character hex string, each channel as `f"{x:04x}"` (at least four
lowercase hex digits). -/
def format_hsv_to_hex (h s v : Nat) : String :=
  ⟨pad04 (natToHex h) ++ pad04 (natToHex s) ++ pad04 (natToHex v)⟩

/- ## Python `int(str)` on decimal strings -/

/-- Decimal value of a digit string. -/
def digitsVal (ds : List Char) : Nat :=
  ds.foldl (fun acc c => acc * 10 + (c.toNat - 48)) 0

/-- Whitespace recognised when stripping numeric input. -/
def isSpaceChar (c : Char) : Bool :=
  c = ' ' ∨ c = '\t' ∨ c = '\n' ∨ c = '\r'

/-- Strip leading and trailing whitespace (Python `str.strip` on ASCII
whitespace). -/
def pyStrip (s : String) : String :=
  ⟨((s.data.dropWhile isSpaceChar).reverse.dropWhile isSpaceChar).reverse⟩

/-- Python `int(str)` on decimal input: optional surrounding whitespace,
optional sign, then decimal digits; anything else raises `ValueError`
(digit-group underscores are not modelled, no claim exercises them). -/
def pyInt (s : String) : PyRes Int :=
  match (pyStrip s).data with
  | '-' :: ds =>
    if ds ≠ [] ∧ ds.all Char.isDigit then .ok (-(digitsVal ds : Int))
    else .exn "invalid literal for int() with base 10"
  | '+' :: ds =>
    if ds ≠ [] ∧ ds.all Char.isDigit then .ok ((digitsVal ds : Int))
    else .exn "invalid literal for int() with base 10"
  | ds =>
    if ds ≠ [] ∧ ds.all Char.isDigit then .ok ((digitsVal ds : Int))
    else .exn "invalid literal for int() with base 10"

/- ## JSON decoding of `colour_data_v2` -/

/-- The double-quote character. -/
def quoteChar : Char := Char.ofNat 34

/-- The opening curly-brace character. -/
def lcurly : Char := Char.ofNat 123

/-- The closing curly-brace character. -/
def rcurly : Char := Char.ofNat 125

/-- Parse a JSON object key after its opening quote: the characters up to
the closing quote. -/
def parseKey (cs : List Char) : Option (String × List Char) :=
  match cs.dropWhile (fun c => c ≠ quoteChar) with
  | _ :: rest => some (⟨cs.takeWhile (fun c => c ≠ quoteChar)⟩, rest)
  | [] => none

/-- Parse a nonnegative JSON integer literal. -/
def parseNum (cs : List Char) : Option (Nat × List Char) :=
  if cs.takeWhile Char.isDigit = [] then none
  else some (digitsVal (cs.takeWhile Char.isDigit), cs.dropWhile Char.isDigit)

/-- Parse the `"key":number` pairs of a flat JSON object, after the opening
brace, up to and including the closing brace. -/
def parsePairs : Nat → List Char → Option (List (String × Nat) × List Char)
  | 0, _ => none
  | fuel + 1, cs =>
    match cs with
    | c :: r =>
      if c = quoteChar then
        match parseKey r with
        | some (k, r1) =>
          match r1 with
          | c1 :: r2 =>
            if c1 = ':' then
              match parseNum r2 with
              | some (n, r3) =>
                match r3 with
                | c2 :: r4 =>
                  if c2 = ',' then
                    match parsePairs fuel r4 with
                    | some (ps, r5) => some ((k, n) :: ps, r5)
                    | none => none
                  else if c2 = rcurly then some ([(k, n)], r4)
                  else none
                | [] => none
              | none => none
            else none
          | [] => none
        | none => none
      else none
    | [] => none

/-- Modelled from the spec: the Python stdlib `json.loads` (not part of
this repository) as used on the `colour_data_v2` field, restricted to flat
objects `\x7b"h":N,"s":N,"v":N\x7d` with nonnegative integer values and no
whitespace — the only JSON shape the device and the claims exercise.  Any
other input is treated as a decode failure. -/
def jsonHsv (s : String) : Option Hsv :=
  match s.data with
  | c :: rest =>
    if c = lcurly then
      match parsePairs (rest.length + 1) rest with
      | some (pairs, []) =>
        match pairs.lookup "h", pairs.lookup "s", pairs.lookup "v" with
        | some hh, some ss, some vv =>
          if pairs.length = 3 then some ⟨(hh : Int), (ss : Int), (vv : Int)⟩ else none
        | _, _, _ => none
      | _ => none
    else none
  | [] => none

/- ## Colour state lookup: `get_current_hsv` -/

/-- The hex fallback of `get_current_hsv`: try DP `"24"` as a 12-character
hex string; a parse exception is caught and yields `none`. -/
def tryHex (d : Dps) : Option Hsv :=
  match d.dp24 with
  | some s =>
    match parse_colour_hex s with
    | .ok x => some x
    | .exn _ => none
  | none => none

/-- The pure part of `get_current_hsv` (bulb.py lines 60–83) applied to a
retrieved status: try JSON from `colour_data_v2` first, on absence or
decode failure fall through to DP `"24"`, else `none`. -/
def lookupHsv (st : Status) : Option Hsv :=
  match st.dps with
  | none => none
  | some d =>
    match d.colour_data_v2 with
    | some cs =>
      match jsonHsv cs with
      | some x => some x
      | none => tryHex d
    | none => tryHex d

/- ## HSV → RGB conversion -/

/-- Python `int()` on a rational: truncation toward zero. -/
def ratTrunc (q : ℚ) : Int :=
  if 0 ≤ q then ⌊q⌋ else -⌊-q⌋

/-- Modelled from the spec: the stdlib `colorsys.hsv_to_rgb` (not part of
this repository), the standard hexagonal-model HSV→RGB conversion on
`[0,1]` coordinates, in exact rational arithmetic. -/
def hsv_to_rgb (h s v : ℚ) : ℚ × ℚ × ℚ :=
  if s = 0 then (v, v, v)
  else
    let i0 : Int := ratTrunc (h * 6)
    let f : ℚ := h * 6 - (i0 : ℚ)
    let p : ℚ := v * (1 - s)
    let q : ℚ := v * (1 - s * f)
    let t : ℚ := v * (1 - s * (1 - f))
    let i : Int := i0 % 6
    if i = 0 then (v, t, p)
    else if i = 1 then (q, v, p)
    else if i = 2 then (p, v, t)
    else if i = 3 then (p, q, v)
    else if i = 4 then (t, p, v)
    else (v, p, q)

/-- The RGB triple the flows send: normalise the device-scale HSV by
360/1000/1000, convert, scale each channel by 255 and truncate (not
round) to an integer (bulb.py lines 155–159 and the parallel copies). -/
def toRgbScaled (x : Hsv) : Int × Int × Int :=
  (ratTrunc ((hsv_to_rgb ((x.h : ℚ) / 360) ((x.s : ℚ) / 1000) ((x.v : ℚ) / 1000)).1 * 255),
   ratTrunc ((hsv_to_rgb ((x.h : ℚ) / 360) ((x.s : ℚ) / 1000) ((x.v : ℚ) / 1000)).2.1 * 255),
   ratTrunc ((hsv_to_rgb ((x.h : ℚ) / 360) ((x.s : ℚ) / 1000) ((x.v : ℚ) / 1000)).2.2 * 255))

/- ## The device collaborator and run results -/

/-- The external `tinytuya.BulbDevice` collaborator, abstracted as fixed
per-call responses; `.exn` models the call raising. -/
structure Device where
  statusRes : PyRes Status
  turnOnRes : PyRes Unit
  turnOffRes : PyRes Unit
  setValueRes : String → DVal → PyRes Unit
  setBrightnessRes : Int → PyRes Unit
  setColourRes : Int → Int → Int → PyRes Unit

/-- Observable behaviour of one operation: the device calls issued in
order, the messages printed, and whether control returns normally
(`.ok ()`) or an exception propagates to the caller (`.exn e`). -/
structure RunResult where
  calls : List DeviceCall
  prints : List String
  out : PyRes Unit

/-- A device on which every call succeeds and `status()` returns `st`. -/
def devOK (st : Status) : Device :=
  ⟨.ok st, .ok (), .ok (), fun _ _ => .ok (), fun _ => .ok (), fun _ _ _ => .ok ()⟩

/-- A device on which every call raises `"boom"`. -/
def devBad : Device :=
  ⟨.exn "boom", .exn "boom", .exn "boom", fun _ _ => .exn "boom",
   fun _ => .exn "boom", fun _ _ _ => .exn "boom"⟩

/-- `get_current_hsv` (bulb.py lines 60–83): one `status()` call, then the
pure lookup; only the `status()` call itself can raise. -/
def get_current_hsv (dev : Device) : PyRes (Option Hsv) :=
  match dev.statusRes with
  | .exn e => .exn e
  | .ok st => .ok (lookupHsv st)

/- ## Shared pieces of the colour flows -/

/-- Overlay a new hue on the current HSV, or synthesise the default
`(new hue, 1000, 1000)` when no current HSV is known (bulb.py lines
143–148 and the parallel copies). -/
def mergeHue (cur : Option Hsv) (newHue : Int) : Hsv :=
  match cur with
  | none => ⟨newHue, 1000, 1000⟩
  | some x => { x with h := newHue }

/-- Overlay a new saturation on the current HSV, or synthesise the default
`(0, new saturation, 1000)` (bulb.py lines 179–184 and the CLI copy). -/
def mergeSat (cur : Option Hsv) (newSat : Int) : Hsv :=
  match cur with
  | none => ⟨0, newSat, 1000⟩
  | some x => { x with s := newSat }

/-- The mode guard shared by all colour flows: read `status()`, and if DP
`"21"` is not `"colour"` write it; a missing `"dps"` key raises
`KeyError`.  Returns the calls issued and the outcome. -/
def ensureColourMode (dev : Device) : List DeviceCall × PyRes Unit :=
  match dev.statusRes with
  | .exn e => ([.status], .exn e)
  | .ok st =>
    match st.dps with
    | none => ([.status], .exn "KeyError: dps")
    | some d =>
      if d.dp21 = some "colour" then ([.status], .ok ())
      else
        match dev.setValueRes "21" (DVal.str "colour") with
        | .exn e => ([.status, .setValue "21" (.str "colour")], .exn e)
        | .ok _ => ([.status, .setValue "21" (.str "colour")], .ok ())

/-- The final `set_colour` write shared by all colour flows: convert the
merged HSV and send the truncated RGB triple. -/
def colourWrite (dev : Device) (x : Hsv) : List DeviceCall × PyRes Unit :=
  match dev.setColourRes (toRgbScaled x).1 (toRgbScaled x).2.1 (toRgbScaled x).2.2 with
  | .exn e => ([DeviceCall.setColour (toRgbScaled x).1 (toRgbScaled x).2.1 (toRgbScaled x).2.2], .exn e)
  | .ok _ => ([DeviceCall.setColour (toRgbScaled x).1 (toRgbScaled x).2.1 (toRgbScaled x).2.2], .ok ())

/- ## Interactive operations -/

/-- `set_white_temp` (bulb.py lines 98–115): validate 0–1000, switch DP
`"21"` to `"white"`, then write DP `"23"`; all errors are caught and
printed. -/
def set_white_temp (dev : Device) (userInput : String) : RunResult :=
  match pyInt userInput with
  | .exn e => ⟨[], ["Error setting white temperature: " ++ e], .ok ()⟩
  | .ok temp =>
    if temp < 0 ∨ 1000 < temp then ⟨[], ["Temperature out of range."], .ok ()⟩
    else
      match dev.setValueRes "21" (DVal.str "white") with
      | .exn e =>
        ⟨[.setValue "21" (.str "white")],
         ["Error setting white temperature: " ++ e], .ok ()⟩
      | .ok _ =>
        match dev.setValueRes "23" (DVal.num temp) with
        | .exn e =>
          ⟨[.setValue "21" (.str "white"), .setValue "23" (.num temp)],
           ["Error setting white temperature: " ++ e], .ok ()⟩
        | .ok _ =>
          ⟨[.setValue "21" (.str "white"), .setValue "23" (.num temp)],
           ["White temperature set to " ++ toString temp ++ "."], .ok ()⟩

/-- `set_brightness` (bulb.py lines 117–129): validate 10–1000, then one
`set_brightness` device call; all errors are caught and printed. -/
def set_brightness (dev : Device) (userInput : String) : RunResult :=
  match pyInt userInput with
  | .exn e => ⟨[], ["Error setting brightness: " ++ e], .ok ()⟩
  | .ok val =>
    if val < 10 ∨ 1000 < val then ⟨[], ["Value out of range."], .ok ()⟩
    else
      match dev.setBrightnessRes val with
      | .exn e => ⟨[.setBrightness val], ["Error setting brightness: " ++ e], .ok ()⟩
      | .ok _ =>
        ⟨[.setBrightness val], ["Brightness set to " ++ toString val ++ "."], .ok ()⟩

/-- `update_hue` (bulb.py lines 131–165): validate 0–360, read the current
HSV, overlay the hue, ensure colour mode, send the converted RGB; all
errors are caught and printed. -/
def update_hue (dev : Device) (userInput : String) : RunResult :=
  match pyInt userInput with
  | .exn e => ⟨[], ["Error updating hue: " ++ e], .ok ()⟩
  | .ok new_hue =>
    if new_hue < 0 ∨ 360 < new_hue then ⟨[], ["Hue out of range."], .ok ()⟩
    else
      match dev.statusRes with
      | .exn e => ⟨[.status], ["Error updating hue: " ++ e], .ok ()⟩
      | .ok st =>
        match ensureColourMode dev with
        | (cs, .exn e) => ⟨DeviceCall.status :: cs, ["Error updating hue: " ++ e], .ok ()⟩
        | (cs, .ok _) =>
          match colourWrite dev (mergeHue (lookupHsv st) new_hue) with
          | (ws, .exn e) =>
            ⟨DeviceCall.status :: cs ++ ws, ["Error updating hue: " ++ e], .ok ()⟩
          | (ws, .ok _) =>
            ⟨DeviceCall.status :: cs ++ ws,
             ["Hue updated to " ++ toString new_hue ++ "."], .ok ()⟩

/-- `update_saturation` (bulb.py lines 167–200): validate 0–1000, read the
current HSV, overlay the saturation, ensure colour mode, send the
converted RGB; all errors are caught and printed. -/
def update_saturation (dev : Device) (userInput : String) : RunResult :=
  match pyInt userInput with
  | .exn e => ⟨[], ["Error updating saturation: " ++ e], .ok ()⟩
  | .ok new_sat =>
    if new_sat < 0 ∨ 1000 < new_sat then ⟨[], ["Saturation out of range."], .ok ()⟩
    else
      match dev.statusRes with
      | .exn e => ⟨[.status], ["Error updating saturation: " ++ e], .ok ()⟩
      | .ok st =>
        match ensureColourMode dev with
        | (cs, .exn e) =>
          ⟨DeviceCall.status :: cs, ["Error updating saturation: " ++ e], .ok ()⟩
        | (cs, .ok _) =>
          match colourWrite dev (mergeSat (lookupHsv st) new_sat) with
          | (ws, .exn e) =>
            ⟨DeviceCall.status :: cs ++ ws, ["Error updating saturation: " ++ e], .ok ()⟩
          | (ws, .ok _) =>
            ⟨DeviceCall.status :: cs ++ ws,
             ["Saturation updated to " ++ toString new_sat ++ "."], .ok ()⟩

/-- Lowercase an ASCII letter (Python `str.lower` per character). -/
def lowerChar (c : Char) : Char :=
  if 65 ≤ c.toNat ∧ c.toNat ≤ 90 then Char.ofNat (c.toNat + 32) else c

/-- Python `str.lower` on ASCII strings. -/
def pyLower (s : String) : String :=
  ⟨s.data.map lowerChar⟩

/-- `PRESET_HUES` (bulb.py lines 36–45): the static preset table. -/
def PRESET_HUES : List (String × Int) :=
  [("red", 0), ("orange", 30), ("yellow", 60), ("green", 120),
   ("cyan", 180), ("blue", 240), ("purple", 300), ("pink", 350)]

/-- The preset listing printed by `preset_colour` before prompting. -/
def presetMenuPrints : List String :=
  "Available preset hues:" :: PRESET_HUES.map (fun p => "  " ++ p.1 ++ " : hue " ++ toString p.2)

/-- `preset_colour` (bulb.py lines 202–236): print the preset table, look
the stripped lowercased choice up, and on success run the hue overlay
flow with the preset hue.  This function has no `try`/`except`: any
exception from a device call propagates to the caller. -/
def preset_colour (dev : Device) (userInput : String) : RunResult :=
  match PRESET_HUES.lookup (pyLower (pyStrip userInput)) with
  | none => ⟨[], presetMenuPrints ++ ["Unknown preset."], .ok ()⟩
  | some presetHue =>
    match dev.statusRes with
    | .exn e => ⟨[.status], presetMenuPrints, .exn e⟩
    | .ok st =>
      match ensureColourMode dev with
      | (cs, .exn e) => ⟨DeviceCall.status :: cs, presetMenuPrints, .exn e⟩
      | (cs, .ok _) =>
        match colourWrite dev (mergeHue (lookupHsv st) presetHue) with
        | (ws, .exn e) => ⟨DeviceCall.status :: cs ++ ws, presetMenuPrints, .exn e⟩
        | (ws, .ok _) =>
          ⟨DeviceCall.status :: cs ++ ws,
           presetMenuPrints ++ ["Preset hue applied."], .ok ()⟩

/- ## The CLI branches of `process_command` -/

/-- Python `args[0]`: raises `IndexError` on an empty argument list. -/
def cliArg (args : List String) : PyRes String :=
  match args with
  | [] => .exn "IndexError: list index out of range"
  | a :: _ => .ok a

/-- The `temp` branch of `process_command` (bulb.py lines 257–266): parse
`args[0]` and issue the mode and value writes with NO range validation;
errors are caught and printed. -/
def cliTemp (dev : Device) (args : List String) : RunResult :=
  match cliArg args with
  | .exn e => ⟨[], ["Error setting white temperature: " ++ e], .ok ()⟩
  | .ok a =>
    match pyInt a with
    | .exn e => ⟨[], ["Error setting white temperature: " ++ e], .ok ()⟩
    | .ok temp =>
      match dev.setValueRes "21" (DVal.str "white") with
      | .exn e =>
        ⟨[.setValue "21" (.str "white")],
         ["Error setting white temperature: " ++ e], .ok ()⟩
      | .ok _ =>
        match dev.setValueRes "23" (DVal.num temp) with
        | .exn e =>
          ⟨[.setValue "21" (.str "white"), .setValue "23" (.num temp)],
           ["Error setting white temperature: " ++ e], .ok ()⟩
        | .ok _ =>
          ⟨[.setValue "21" (.str "white"), .setValue "23" (.num temp)],
           ["White temperature set to " ++ toString temp ++ "."], .ok ()⟩

/-- The `bright` branch of `process_command` (bulb.py lines 267–273):
parse `args[0]` and issue the brightness write with NO range validation;
errors are caught and printed. -/
def cliBright (dev : Device) (args : List String) : RunResult :=
  match cliArg args with
  | .exn e => ⟨[], ["Error setting brightness: " ++ e], .ok ()⟩
  | .ok a =>
    match pyInt a with
    | .exn e => ⟨[], ["Error setting brightness: " ++ e], .ok ()⟩
    | .ok val =>
      match dev.setBrightnessRes val with
      | .exn e => ⟨[.setBrightness val], ["Error setting brightness: " ++ e], .ok ()⟩
      | .ok _ =>
        ⟨[.setBrightness val], ["Brightness set to " ++ toString val ++ "."], .ok ()⟩

/-- The `hue` branch of `process_command` (bulb.py lines 274–294): like
`update_hue` but with NO range validation; errors are caught and
printed. -/
def cliHue (dev : Device) (args : List String) : RunResult :=
  match cliArg args with
  | .exn e => ⟨[], ["Error updating hue: " ++ e], .ok ()⟩
  | .ok a =>
    match pyInt a with
    | .exn e => ⟨[], ["Error updating hue: " ++ e], .ok ()⟩
    | .ok new_hue =>
      match dev.statusRes with
      | .exn e => ⟨[.status], ["Error updating hue: " ++ e], .ok ()⟩
      | .ok st =>
        match ensureColourMode dev with
        | (cs, .exn e) => ⟨DeviceCall.status :: cs, ["Error updating hue: " ++ e], .ok ()⟩
        | (cs, .ok _) =>
          match colourWrite dev (mergeHue (lookupHsv st) new_hue) with
          | (ws, .exn e) =>
            ⟨DeviceCall.status :: cs ++ ws, ["Error updating hue: " ++ e], .ok ()⟩
          | (ws, .ok _) =>
            ⟨DeviceCall.status :: cs ++ ws,
             ["Hue updated to " ++ toString new_hue ++ "."], .ok ()⟩

/-- The `sat` branch of `process_command` (bulb.py lines 295–315): like
`update_saturation` but with NO range validation; errors are caught and
printed. -/
def cliSat (dev : Device) (args : List String) : RunResult :=
  match cliArg args with
  | .exn e => ⟨[], ["Error updating saturation: " ++ e], .ok ()⟩
  | .ok a =>
    match pyInt a with
    | .exn e => ⟨[], ["Error updating saturation: " ++ e], .ok ()⟩
    | .ok new_sat =>
      match dev.statusRes with
      | .exn e => ⟨[.status], ["Error updating saturation: " ++ e], .ok ()⟩
      | .ok st =>
        match ensureColourMode dev with
        | (cs, .exn e) =>
          ⟨DeviceCall.status :: cs, ["Error updating saturation: " ++ e], .ok ()⟩
        | (cs, .ok _) =>
          match colourWrite dev (mergeSat (lookupHsv st) new_sat) with
          | (ws, .exn e) =>
            ⟨DeviceCall.status :: cs ++ ws, ["Error updating saturation: " ++ e], .ok ()⟩
          | (ws, .ok _) =>
            ⟨DeviceCall.status :: cs ++ ws,
             ["Saturation updated to " ++ toString new_sat ++ "."], .ok ()⟩

/-- The `colour` branch of `process_command` (bulb.py lines 316–340): look
`args[0].lower()` up in the preset table (reporting an unknown preset
without any device call), then run the hue overlay flow; unlike the
interactive `preset_colour`, everything is inside `try`/`except`. -/
def cliColour (dev : Device) (args : List String) : RunResult :=
  match cliArg args with
  | .exn e => ⟨[], ["Error updating preset hue: " ++ e], .ok ()⟩
  | .ok a =>
    match PRESET_HUES.lookup (pyLower a) with
    | none => ⟨[], ["Unknown preset."], .ok ()⟩
    | some presetHue =>
      match dev.statusRes with
      | .exn e => ⟨[.status], ["Error updating preset hue: " ++ e], .ok ()⟩
      | .ok st =>
        match ensureColourMode dev with
        | (cs, .exn e) =>
          ⟨DeviceCall.status :: cs, ["Error updating preset hue: " ++ e], .ok ()⟩
        | (cs, .ok _) =>
          match colourWrite dev (mergeHue (lookupHsv st) presetHue) with
          | (ws, .exn e) =>
            ⟨DeviceCall.status :: cs ++ ws, ["Error updating preset hue: " ++ e], .ok ()⟩
          | (ws, .ok _) =>
            ⟨DeviceCall.status :: cs ++ ws, ["Preset hue applied."], .ok ()⟩

/-- `process_command` (bulb.py lines 249–344): the CLI dispatcher.  The
`on`, `off` and `status` branches call the device with no `try`/`except`,
so an exception there propagates; the argument-taking branches catch all
their errors. -/
def process_command (dev : Device) (cmd : String) (args : List String) : RunResult :=
  if cmd = "on" then
    match dev.turnOnRes with
    | .exn e => ⟨[.turnOn], [], .exn e⟩
    | .ok _ => ⟨[.turnOn], ["Bulb turned on."], .ok ()⟩
  else if cmd = "off" then
    match dev.turnOffRes with
    | .exn e => ⟨[.turnOff], [], .exn e⟩
    | .ok _ => ⟨[.turnOff], ["Bulb turned off."], .ok ()⟩
  else if cmd = "temp" then cliTemp dev args
  else if cmd = "bright" then cliBright dev args
  else if cmd = "hue" then cliHue dev args
  else if cmd = "sat" then cliSat dev args
  else if cmd = "colour" then cliColour dev args
  else if cmd = "status" then
    match dev.statusRes with
    | .exn e => ⟨[.status], [], .exn e⟩
    | .ok _ => ⟨[.status], ["Current bulb status printed."], .ok ()⟩
  else ⟨[], ["Unknown command."], .ok ()⟩

/- ## Lemmas about the hex encoding -/

theorem hexVal_digitChar (d : Nat) (hd : d < 16) : hexVal (Nat.digitChar d) = some d := by
  interval_cases d <;> decide

theorem toHexAux_fuel : ∀ f1 f2 n : Nat, n < f1 → n < f2 → toHexAux f1 n = toHexAux f2 n := by
  intro f1
  induction f1 with
  | zero => intro f2 n h1 _; omega
  | succ k ih =>
    intro f2 n h1 h2
    cases f2 with
    | zero => omega
    | succ m =>
      simp only [toHexAux]
      by_cases hn : n < 16
      · simp [hn]
      · simp only [if_neg hn]
        have hdiv : n / 16 < n := Nat.div_lt_self (by omega) (by norm_num)
        rw [ih m (n / 16) (by omega) (by omega)]

theorem natToHex_lt16 {n : Nat} (h : n < 16) : natToHex n = [Nat.digitChar n] := by
  simp only [natToHex, toHexAux, if_pos h]

theorem natToHex_step {n : Nat} (h : 16 ≤ n) :
    natToHex n = natToHex (n / 16) ++ [Nat.digitChar (n % 16)] := by
  have hdiv : n / 16 < n := Nat.div_lt_self (by omega) (by norm_num)
  simp only [natToHex, toHexAux, if_neg (by omega : ¬ n < 16)]
  rw [toHexAux_fuel n (n / 16 + 1) (n / 16) (by omega) (by omega)]
  simp only [toHexAux]

theorem natToHex_char (n : Nat) (hn : n < 65536) :
    pad04 (natToHex n) =
      [Nat.digitChar (n / 4096 % 16), Nat.digitChar (n / 256 % 16),
       Nat.digitChar (n / 16 % 16), Nat.digitChar (n % 16)] := by
  by_cases h1 : n < 16
  · rw [natToHex_lt16 h1]
    rw [(by omega : n / 4096 % 16 = 0), (by omega : n / 256 % 16 = 0),
        (by omega : n / 16 % 16 = 0), (by omega : n % 16 = n)]
    rfl
  · by_cases h2 : n < 256
    · rw [natToHex_step (by omega), natToHex_lt16 (by omega : n / 16 < 16)]
      rw [(by omega : n / 4096 % 16 = 0), (by omega : n / 256 % 16 = 0),
          (by omega : n / 16 % 16 = n / 16)]
      rfl
    · by_cases h3 : n < 4096
      · rw [natToHex_step (by omega), natToHex_step (by omega : 16 ≤ n / 16),
            natToHex_lt16 (by omega : n / 16 / 16 < 16)]
        rw [(by omega : n / 16 / 16 = n / 256)]
        rw [(by omega : n / 4096 % 16 = 0), (by omega : n / 256 % 16 = n / 256)]
        rfl
      · rw [natToHex_step (by omega), natToHex_step (by omega : 16 ≤ n / 16),
            natToHex_step (by omega : 16 ≤ n / 16 / 16),
            natToHex_lt16 (by omega : n / 16 / 16 / 16 < 16)]
        rw [(by omega : n / 16 / 16 / 16 = n / 4096), (by omega : n / 16 / 16 = n / 256)]
        rw [(by omega : n / 4096 % 16 = n / 4096)]
        rfl

theorem hexAcc_quad (a b c d : Nat) (ha : a < 16) (hb : b < 16) (hc : c < 16) (hd : d < 16) :
    hexAcc 0 [Nat.digitChar a, Nat.digitChar b, Nat.digitChar c, Nat.digitChar d] =
      some (((a * 16 + b) * 16 + c) * 16 + d) := by
  simp only [hexAcc, hexVal_digitChar a ha, hexVal_digitChar b hb,
    hexVal_digitChar c hc, hexVal_digitChar d hd]
  norm_num

theorem parse_12 (a0 a1 a2 a3 b0 b1 b2 b3 c0 c1 c2 c3 : Char) :
    parse_colour_hex ⟨[a0, a1, a2, a3, b0, b1, b2, b3, c0, c1, c2, c3]⟩ =
      match hexAcc 0 [a0, a1, a2, a3], hexAcc 0 [b0, b1, b2, b3], hexAcc 0 [c0, c1, c2, c3] with
      | some hue, some sat, some val => .ok ⟨(hue : Int), (sat : Int), (val : Int)⟩
      | _, _, _ => .exn "invalid literal for int with base 16" := rfl

/-- A character that is a hex digit in canonical lowercase rendering. -/
def IsLowerHex (c : Char) : Prop :=
  c ∈ ['a', 'b', 'c', 'd', 'e', 'f', '0', '1', '2', '3', '4', '5', '6', '7', '8', '9']

instance (c : Char) : Decidable (IsLowerHex c) := by
  unfold IsLowerHex
  infer_instance

/-- Hex digit value with default 0. -/
def hv (c : Char) : Nat := (hexVal c).getD 0

theorem lowerHex_spec (c : Char) (h : IsLowerHex c) :
    hexVal c = some (hv c) ∧ hv c < 16 ∧ Nat.digitChar (hv c) = c := by
  have h' : c ∈ ['a', 'b', 'c', 'd', 'e', 'f',
                 '0', '1', '2', '3', '4', '5', '6', '7', '8', '9'] := h
  fin_cases h' <;> exact ⟨by decide, by decide, by decide⟩

/- ## Lemmas about the command flows -/

theorem devOK_statusRes (st : Status) : (devOK st).statusRes = .ok st := rfl

theorem ensureOK (st : Status) (d : Dps) (hd : st.dps = some d)
    (hm : d.dp21 = some "colour") :
    ensureColourMode (devOK st) = ([.status], .ok ()) := by
  unfold ensureColourMode devOK
  dsimp only
  rw [hd]
  dsimp only
  rw [hm, if_pos rfl]

theorem colourWriteOK (st : Status) (x : Hsv) :
    colourWrite (devOK st) x =
      ([DeviceCall.setColour (toRgbScaled x).1 (toRgbScaled x).2.1 (toRgbScaled x).2.2],
       .ok ()) := rfl

theorem cliTempOut (dev : Device) (args : List String) : (cliTemp dev args).out = .ok () := by
  unfold cliTemp
  repeat' split
  all_goals rfl

theorem cliBrightOut (dev : Device) (args : List String) : (cliBright dev args).out = .ok () := by
  unfold cliBright
  repeat' split
  all_goals rfl

theorem cliHueOut (dev : Device) (args : List String) : (cliHue dev args).out = .ok () := by
  unfold cliHue
  repeat' split
  all_goals rfl

theorem cliSatOut (dev : Device) (args : List String) : (cliSat dev args).out = .ok () := by
  unfold cliSat
  repeat' split
  all_goals rfl

theorem cliColourOut (dev : Device) (args : List String) : (cliColour dev args).out = .ok () := by
  unfold cliColour
  repeat' split
  all_goals rfl

/- ## Concrete scenario fixtures -/

/-- The C1 scenario JSON payload. -/
def jsonStrC1 : String := "\x7b\"h\":120,\"s\":500,\"v\":800\x7d"

/-- Status for the C1 scenario: `colour_data_v2` holds the JSON payload,
the device is already in colour mode. -/
def stC1 : Status := ⟨some ⟨some jsonStrC1, none, some "colour"⟩⟩

/-- Status with no colour fields at all, device already in colour mode. -/
def stEmpty : Status := ⟨some ⟨none, none, some "colour"⟩⟩

/-- Status whose colour state is only available through the hex DP `"24"`:
hue 120, saturation 500, value 800. -/
def stHex : Status := ⟨some ⟨none, some "007801f40320", some "colour"⟩⟩

/-- Status with a malformed JSON colour field and a valid hex field. -/
def stMixed : Status := ⟨some ⟨some "notjson", some "00aa00bb00cc", some "colour"⟩⟩

theorem rgb240 : toRgbScaled ⟨240, 500, 800⟩ = (102, 102, 204) := by
  norm_num [toRgbScaled, hsv_to_rgb, ratTrunc]

theorem rgbSat300 : toRgbScaled ⟨0, 300, 1000⟩ = (255, 178, 178) := by
  norm_num [toRgbScaled, hsv_to_rgb, ratTrunc]

/- ## Claim theorems -/

/-- C1 (counterexample): in the scenario with
`colour_data_v2 = '\x7b"h":120,"s":500,"v":800\x7d'`, set-hue(240) sends the
device the RGB triple (102, 102, 204); it does not send (64, 191, 191), nor
anything near it, contradicting the claimed triple. -/
theorem hue240_not_rgb_64_191_191 :
    process_command (devOK stC1) "hue" ["240"] =
      ⟨[.status, .status, .setColour 102 102 204], ["Hue updated to 240."], .ok ()⟩ ∧
    DeviceCall.setColour 64 191 191 ∉ (process_command (devOK stC1) "hue" ["240"]).calls := by
  have key : process_command (devOK stC1) "hue" ["240"] =
      ⟨[.status, .status, .setColour (toRgbScaled ⟨240, 500, 800⟩).1
          (toRgbScaled ⟨240, 500, 800⟩).2.1 (toRgbScaled ⟨240, 500, 800⟩).2.2],
       ["Hue updated to 240."], .ok ()⟩ := rfl
  constructor
  · rw [key, rgb240]
  · rw [key, rgb240]
    decide

/-- C1 (amended): in the scenario with
`colour_data_v2 = '\x7b"h":120,"s":500,"v":800\x7d'`, set-hue(240) computes
the merged HSV (240, 500, 800) and sends the device the RGB triple
(102, 102, 204), the result of standard HSV→RGB conversion at h=2/3,
s=0.5, v=0.8 with each channel scaled by 255 and truncated. -/
theorem hue240_merged_hsv_and_rgb :
    jsonHsv jsonStrC1 = some ⟨120, 500, 800⟩ ∧
    mergeHue (lookupHsv stC1) 240 = ⟨240, 500, 800⟩ ∧
    toRgbScaled ⟨240, 500, 800⟩ = (102, 102, 204) ∧
    process_command (devOK stC1) "hue" ["240"] =
      ⟨[.status, .status, .setColour 102 102 204], ["Hue updated to 240."], .ok ()⟩ := by
  refine ⟨rfl, rfl, rgb240, ?_⟩
  have key : process_command (devOK stC1) "hue" ["240"] =
      ⟨[.status, .status, .setColour (toRgbScaled ⟨240, 500, 800⟩).1
          (toRgbScaled ⟨240, 500, 800⟩).2.1 (toRgbScaled ⟨240, 500, 800⟩).2.2],
       ["Hue updated to 240."], .ok ()⟩ := rfl
  rw [key, rgb240]

/-- C7: when the status has no colour fields, set-saturation(300)
synthesises the default HSV (0, 300, 1000), sends the corresponding RGB
triple (255, 178, 178), and returns normally with no error. -/
theorem sat300_default_hsv_and_rgb :
    lookupHsv stEmpty = none ∧
    mergeSat (lookupHsv stEmpty) 300 = ⟨0, 300, 1000⟩ ∧
    toRgbScaled ⟨0, 300, 1000⟩ = (255, 178, 178) ∧
    process_command (devOK stEmpty) "sat" ["300"] =
      ⟨[.status, .status, .setColour 255 178 178], ["Saturation updated to 300."], .ok ()⟩ := by
  refine ⟨rfl, rfl, rgbSat300, ?_⟩
  have key : process_command (devOK stEmpty) "sat" ["300"] =
      ⟨[.status, .status, .setColour (toRgbScaled ⟨0, 300, 1000⟩).1
          (toRgbScaled ⟨0, 300, 1000⟩).2.1 (toRgbScaled ⟨0, 300, 1000⟩).2.2],
       ["Saturation updated to 300."], .ok ()⟩ := rfl
  rw [key, rgbSat300]

/-- C3 (counterexample): the CLI invocation `program bright 5000` is NOT
rejected before a device call; the dispatcher issues
`set_brightness(5000)` to the device. -/
theorem cli_bright_5000_calls_device :
    (process_command (devOK stEmpty) "bright" ["5000"]).calls = [.setBrightness 5000] ∧
    (process_command (devOK stEmpty) "bright" ["5000"]).prints = ["Brightness set to 5000."] :=
  ⟨rfl, rfl⟩

/-- C3 (amended): the interactive brightness operation accepts exactly the
integers 10–1000 (an in-range value is forwarded to the device, an
out-of-range value is rejected with "Value out of range." and no device
call); the CLI `bright` branch performs no local range validation and
forwards any parsed integer straight to the device. -/
theorem brightness_range_interactive_only :
    (∀ (dev : Device) (str1 : String) (val : Int), pyInt str1 = .ok val →
        10 ≤ val → val ≤ 1000 → (set_brightness dev str1).calls = [.setBrightness val]) ∧
    (∀ (dev : Device) (str1 : String) (val : Int), pyInt str1 = .ok val →
        (val < 10 ∨ 1000 < val) →
        set_brightness dev str1 = ⟨[], ["Value out of range."], .ok ()⟩) ∧
    (∀ (st : Status) (str1 : String) (rest : List String) (val : Int), pyInt str1 = .ok val →
        (cliBright (devOK st) (str1 :: rest)).calls = [.setBrightness val]) := by
  refine ⟨?_, ?_, ?_⟩
  · intro dev str1 val hp h1 h2
    unfold set_brightness
    rw [hp]
    dsimp only
    rw [if_neg (by omega)]
    cases hbr : dev.setBrightnessRes val <;> rfl
  · intro dev str1 val hp hrange
    unfold set_brightness
    rw [hp]
    dsimp only
    rw [if_pos hrange]
  · intro st str1 rest val hp
    unfold cliBright cliArg
    dsimp only
    rw [hp]
    rfl

/-- C3 (witness): brightness 10 and 1000 are accepted, 9 and 1001
rejected interactively, and the CLI forwards 5000 unvalidated. -/
theorem brightness_range_witness :
    (set_brightness (devOK stEmpty) "10").calls = [.setBrightness 10] ∧
    (set_brightness (devOK stEmpty) "1000").calls = [.setBrightness 1000] ∧
    set_brightness (devOK stEmpty) "9" = ⟨[], ["Value out of range."], .ok ()⟩ ∧
    set_brightness (devOK stEmpty) "1001" = ⟨[], ["Value out of range."], .ok ()⟩ ∧
    (cliBright (devOK stEmpty) ["5000"]).calls = [.setBrightness 5000] :=
  ⟨brightness_range_interactive_only.1 (devOK stEmpty) "10" 10 (by decide) (by decide) (by decide),
   brightness_range_interactive_only.1 (devOK stEmpty) "1000" 1000 (by decide) (by decide) (by decide),
   brightness_range_interactive_only.2.1 (devOK stEmpty) "9" 9 (by decide) (by decide),
   brightness_range_interactive_only.2.1 (devOK stEmpty) "1001" 1001 (by decide) (by decide),
   brightness_range_interactive_only.2.2 stEmpty "5000" [] 5000 (by decide)⟩

/-- C8 (counterexample): the CLI `temp` branch does not validate the
range: `program temp 1001` issues both the mode write and the value write
with the out-of-range value. -/
theorem cli_temp_1001_issues_writes :
    (process_command (devOK stEmpty) "temp" ["1001"]).calls =
      [.setValue "21" (.str "white"), .setValue "23" (.num 1001)] := rfl

/-- C8 (amended): the interactive white-temperature operation accepts
exactly the integers 0–1000 (an in-range value leads to the mode write
followed by the value write with the value unchanged, i.e. not clamped;
an out-of-range value is rejected with "Temperature out of range." and no
device write); the CLI `temp` branch performs no local range validation
and issues both writes for any parsed integer. -/
theorem white_temp_range_interactive_only :
    (∀ (st : Status) (str1 : String) (t : Int), pyInt str1 = .ok t →
        0 ≤ t → t ≤ 1000 → (set_white_temp (devOK st) str1).calls =
          [.setValue "21" (.str "white"), .setValue "23" (.num t)]) ∧
    (∀ (dev : Device) (str1 : String) (t : Int), pyInt str1 = .ok t →
        (t < 0 ∨ 1000 < t) →
        set_white_temp dev str1 = ⟨[], ["Temperature out of range."], .ok ()⟩) ∧
    (∀ (st : Status) (str1 : String) (rest : List String) (t : Int), pyInt str1 = .ok t →
        (cliTemp (devOK st) (str1 :: rest)).calls =
          [.setValue "21" (.str "white"), .setValue "23" (.num t)]) := by
  refine ⟨?_, ?_, ?_⟩
  · intro st str1 t hp h0 h1
    unfold set_white_temp
    rw [hp]
    dsimp only
    rw [if_neg (by omega)]
    rfl
  · intro dev str1 t hp hrange
    unfold set_white_temp
    rw [hp]
    dsimp only
    rw [if_pos hrange]
  · intro st str1 rest t hp
    unfold cliTemp cliArg
    dsimp only
    rw [hp]
    rfl

/-- C8 (witness): white temperature 0 and 1000 are accepted, -1 and 1001
rejected interactively, and the CLI forwards 1001 unvalidated. -/
theorem white_temp_range_witness :
    (set_white_temp (devOK stEmpty) "0").calls =
      [.setValue "21" (.str "white"), .setValue "23" (.num 0)] ∧
    (set_white_temp (devOK stEmpty) "1000").calls =
      [.setValue "21" (.str "white"), .setValue "23" (.num 1000)] ∧
    set_white_temp (devOK stEmpty) "-1" = ⟨[], ["Temperature out of range."], .ok ()⟩ ∧
    set_white_temp (devOK stEmpty) "1001" = ⟨[], ["Temperature out of range."], .ok ()⟩ ∧
    (cliTemp (devOK stEmpty) ["1001"]).calls =
      [.setValue "21" (.str "white"), .setValue "23" (.num 1001)] :=
  ⟨white_temp_range_interactive_only.1 stEmpty "0" 0 (by decide) (by decide) (by decide),
   white_temp_range_interactive_only.1 stEmpty "1000" 1000 (by decide) (by decide) (by decide),
   white_temp_range_interactive_only.2.1 (devOK stEmpty) "-1" (-1) (by decide) (by decide),
   white_temp_range_interactive_only.2.1 (devOK stEmpty) "1001" 1001 (by decide) (by decide),
   white_temp_range_interactive_only.2.2 stEmpty "1001" [] 1001 (by decide)⟩

/-- C4 (counterexample): the `on` branch of the dispatcher has no
`try`/`except`: a device error in `turn_on` propagates unhandled to the
caller instead of being caught and reported. -/
theorem cli_on_propagates_device_error :
    (process_command devBad "on" []).out = .exn "boom" := rfl

/-- C4 (amended): the argument-taking dispatcher branches (`temp`,
`bright`, `hue`, `sat`, `colour`) and the unknown-command branch catch all
device and parse errors and return control normally; but the `on`, `off`
and `status` branches, and the interactive `preset_colour`, let device
errors propagate unhandled. -/
theorem errors_caught_except_on_off_status :
    (∀ (dev : Device) (args : List String) (cmd : String),
        cmd = "temp" ∨ cmd = "bright" ∨ cmd = "hue" ∨ cmd = "sat" ∨ cmd = "colour" →
        (process_command dev cmd args).out = .ok ()) ∧
    (∀ (dev : Device) (args : List String) (cmd : String),
        cmd ≠ "on" → cmd ≠ "off" → cmd ≠ "temp" → cmd ≠ "bright" → cmd ≠ "hue" →
        cmd ≠ "sat" → cmd ≠ "colour" → cmd ≠ "status" →
        (process_command dev cmd args).out = .ok ()) ∧
    (process_command devBad "off" []).out = .exn "boom" ∧
    (process_command devBad "status" []).out = .exn "boom" ∧
    (preset_colour devBad "red").out = .exn "boom" := by
  refine ⟨?_, ?_, rfl, rfl, rfl⟩
  · intro dev args cmd hc
    rcases hc with rfl | rfl | rfl | rfl | rfl
    · exact cliTempOut dev args
    · exact cliBrightOut dev args
    · exact cliHueOut dev args
    · exact cliSatOut dev args
    · exact cliColourOut dev args
  · intro dev args cmd h1 h2 h3 h4 h5 h6 h7 h8
    unfold process_command
    rw [if_neg h1, if_neg h2, if_neg h3, if_neg h4, if_neg h5, if_neg h6, if_neg h7,
        if_neg h8]

/-- C4 (witness): a failing device is handled in the `bright` branch and
in an unknown-command invocation. -/
theorem errors_caught_witness :
    (process_command devBad "bright" ["5"]).out = .ok () ∧
    (process_command devBad "zzz" []).out = .ok () :=
  ⟨errors_caught_except_on_off_status.1 devBad ["5"] "bright" (Or.inr (Or.inl rfl)),
   errors_caught_except_on_off_status.2.1 devBad [] "zzz" (by decide) (by decide) (by decide)
     (by decide) (by decide) (by decide) (by decide) (by decide)⟩

/-- C9: an unknown preset name is reported as "Unknown preset." and the
operation returns without issuing any device call, both in the
interactive `preset_colour` and in the CLI `colour` branch. -/
theorem unknown_preset_no_device_calls :
    (∀ (dev : Device) (name1 : String),
        PRESET_HUES.lookup (pyLower (pyStrip name1)) = none →
        preset_colour dev name1 = ⟨[], presetMenuPrints ++ ["Unknown preset."], .ok ()⟩) ∧
    (∀ (dev : Device) (name1 : String) (rest : List String),
        PRESET_HUES.lookup (pyLower name1) = none →
        cliColour dev (name1 :: rest) = ⟨[], ["Unknown preset."], .ok ()⟩) := by
  constructor
  · intro dev name1 hl
    unfold preset_colour
    simp only [hl]
  · intro dev name1 rest hl
    unfold cliColour cliArg
    dsimp only
    simp only [hl]

/-- C9 (witness): the unknown preset "magenta" on a device whose every
call would raise: no call is issued and the operation reports the unknown
preset. -/
theorem unknown_preset_witness :
    preset_colour devBad "magenta" = ⟨[], presetMenuPrints ++ ["Unknown preset."], .ok ()⟩ ∧
    cliColour devBad ["magenta"] = ⟨[], ["Unknown preset."], .ok ()⟩ :=
  ⟨unknown_preset_no_device_calls.1 devBad "magenta" rfl,
   unknown_preset_no_device_calls.2 devBad "magenta" [] rfl⟩

/-- C2: for every valid hue input in [0,360] the hue update sends an RGB
triple computed from the HSV that keeps the saturation and value read from
status exactly, and for every valid saturation input in [0,1000] the
saturation update keeps the hue and value read from status exactly. -/
theorem hue_sat_updates_preserve_other_channels
    (st : Status) (d : Dps) (xh xs xv : Int) (strH strS : String) (hIn sIn : Int)
    (hd : st.dps = some d) (hm : d.dp21 = some "colour")
    (hl : lookupHsv st = some ⟨xh, xs, xv⟩)
    (hpH : pyInt strH = .ok hIn) (hH0 : 0 ≤ hIn) (hH1 : hIn ≤ 360)
    (hpS : pyInt strS = .ok sIn) (hS0 : 0 ≤ sIn) (hS1 : sIn ≤ 1000) :
    (update_hue (devOK st) strH).calls =
      [.status, .status, DeviceCall.setColour (toRgbScaled ⟨hIn, xs, xv⟩).1
        (toRgbScaled ⟨hIn, xs, xv⟩).2.1 (toRgbScaled ⟨hIn, xs, xv⟩).2.2] ∧
    (update_saturation (devOK st) strS).calls =
      [.status, .status, DeviceCall.setColour (toRgbScaled ⟨xh, sIn, xv⟩).1
        (toRgbScaled ⟨xh, sIn, xv⟩).2.1 (toRgbScaled ⟨xh, sIn, xv⟩).2.2] := by
  constructor
  · unfold update_hue
    rw [hpH]
    dsimp only
    rw [if_neg (by omega), devOK_statusRes]
    dsimp only
    rw [ensureOK st d hd hm]
    dsimp only
    rw [hl]
    dsimp only [mergeHue]
    rw [colourWriteOK]
    rfl
  · unfold update_saturation
    rw [hpS]
    dsimp only
    rw [if_neg (by omega), devOK_statusRes]
    dsimp only
    rw [ensureOK st d hd hm]
    dsimp only
    rw [hl]
    dsimp only [mergeSat]
    rw [colourWriteOK]
    rfl

/-- C2 (witness): with current HSV (120, 500, 800) read from the hex DP,
update-hue(240) sends the colour of (240, 500, 800) and
update-saturation(300) sends the colour of (120, 300, 800). -/
theorem hue_sat_preserve_witness :
    (update_hue (devOK stHex) "240").calls =
      [.status, .status, DeviceCall.setColour (toRgbScaled ⟨240, 500, 800⟩).1
        (toRgbScaled ⟨240, 500, 800⟩).2.1 (toRgbScaled ⟨240, 500, 800⟩).2.2] ∧
    (update_saturation (devOK stHex) "300").calls =
      [.status, .status, DeviceCall.setColour (toRgbScaled ⟨120, 300, 800⟩).1
        (toRgbScaled ⟨120, 300, 800⟩).2.1 (toRgbScaled ⟨120, 300, 800⟩).2.2] :=
  hue_sat_updates_preserve_other_channels stHex ⟨none, some "007801f40320", some "colour"⟩
    120 500 800 "240" "300" 240 300 rfl rfl rfl (by decide) (by decide) (by decide)
    (by decide) (by decide) (by decide)

/-- C6: reading the colour state tries the JSON field `colour_data_v2`
first, then the hex DP `"24"`; a JSON decode failure or absence falls
through to the hex source, a hex failure is also non-fatal, and when both
sources fail or are absent the function returns no data instead of
raising. -/
theorem get_current_hsv_priority_and_fallback (dev : Device) (st : Status)
    (hst : dev.statusRes = .ok st) :
    (∀ (d : Dps) (cs : String) (x : Hsv), st.dps = some d → d.colour_data_v2 = some cs →
        jsonHsv cs = some x → get_current_hsv dev = .ok (some x)) ∧
    (∀ (d : Dps) (s24 : String) (x : Hsv), st.dps = some d →
        d.colour_data_v2.bind jsonHsv = none → d.dp24 = some s24 →
        parse_colour_hex s24 = .ok x → get_current_hsv dev = .ok (some x)) ∧
    (∀ (d : Dps), st.dps = some d → d.colour_data_v2.bind jsonHsv = none →
        tryHex d = none → get_current_hsv dev = .ok none) ∧
    (st.dps = none → get_current_hsv dev = .ok none) := by
  refine ⟨?_, ?_, ?_, ?_⟩
  · intro d cs x hd hcv hj
    unfold get_current_hsv
    rw [hst]
    unfold lookupHsv
    simp only [hd, hcv, hj]
  · intro d s24 x hd hbind h24 hp
    unfold get_current_hsv
    rw [hst]
    unfold lookupHsv
    cases hcv : d.colour_data_v2 with
    | none => simp only [hd, hcv, tryHex, h24, hp]
    | some cs =>
      have hj : jsonHsv cs = none := by rw [hcv] at hbind; simpa using hbind
      simp only [hd, hcv, hj, tryHex, h24, hp]
  · intro d hd hbind ht
    unfold get_current_hsv
    rw [hst]
    unfold lookupHsv
    cases hcv : d.colour_data_v2 with
    | none => simp only [hd, hcv, ht]
    | some cs =>
      have hj : jsonHsv cs = none := by rw [hcv] at hbind; simpa using hbind
      simp only [hd, hcv, hj, ht]
  · intro h
    unfold get_current_hsv
    rw [hst]
    unfold lookupHsv
    simp only [h]

/-- C6 (witness): with a malformed JSON field and a valid hex field the
lookup falls through to the hex source and returns its HSV. -/
theorem get_current_hsv_witness :
    get_current_hsv (devOK stMixed) = .ok (some ⟨170, 187, 204⟩) :=
  (get_current_hsv_priority_and_fallback (devOK stMixed) stMixed rfl).2.1
    ⟨some "notjson", some "00aa00bb00cc", some "colour"⟩ "00aa00bb00cc" ⟨170, 187, 204⟩
    rfl (by decide) rfl (by decide)

/-- C5 (counterexample): the round trip fails on a well-formed 12-hex-digit
string containing an uppercase digit: parsing accepts `"00000000000A"` but
formatting renders lowercase, so the result differs from the input. -/
theorem parse_format_roundtrip_fails_uppercase :
    parse_colour_hex "00000000000A" = .ok ⟨0, 0, 10⟩ ∧
    format_hsv_to_hex 0 0 10 = "00000000000a" ∧
    "00000000000a" ≠ "00000000000A" := ⟨rfl, rfl, by decide⟩

/-- C5 (amended): for every 12-character string whose characters are all
lowercase hex digits, formatting the parsed HSV back to hex is the
identity. -/
theorem parse_format_roundtrip_lower_hex (s : String) (h12 : s.length = 12)
    (hlow : ∀ c ∈ s.data, IsLowerHex c) :
    ∃ x : Hsv, parse_colour_hex s = .ok x ∧
      format_hsv_to_hex x.h.toNat x.s.toNat x.v.toNat = s := by
  obtain ⟨data⟩ := s
  have h12' : data.length = 12 := h12
  rcases data with _|⟨c0,_|⟨c1,_|⟨c2,_|⟨c3,_|⟨c4,_|⟨c5,_|⟨c6,_|⟨c7,_|⟨c8,_|⟨c9,_|⟨c10,_|⟨c11,_|⟨c12,data⟩⟩⟩⟩⟩⟩⟩⟩⟩⟩⟩⟩⟩ <;>
      simp only [List.length_cons, List.length_nil] at h12' <;> try omega
  have S0 := lowerHex_spec c0 (hlow c0 (by simp))
  have S1 := lowerHex_spec c1 (hlow c1 (by simp))
  have S2 := lowerHex_spec c2 (hlow c2 (by simp))
  have S3 := lowerHex_spec c3 (hlow c3 (by simp))
  have S4 := lowerHex_spec c4 (hlow c4 (by simp))
  have S5 := lowerHex_spec c5 (hlow c5 (by simp))
  have S6 := lowerHex_spec c6 (hlow c6 (by simp))
  have S7 := lowerHex_spec c7 (hlow c7 (by simp))
  have S8 := lowerHex_spec c8 (hlow c8 (by simp))
  have S9 := lowerHex_spec c9 (hlow c9 (by simp))
  have S10 := lowerHex_spec c10 (hlow c10 (by simp))
  have S11 := lowerHex_spec c11 (hlow c11 (by simp))
  refine ⟨⟨(((hv c0 * 16 + hv c1) * 16 + hv c2) * 16 + hv c3 : Nat),
          (((hv c4 * 16 + hv c5) * 16 + hv c6) * 16 + hv c7 : Nat),
          (((hv c8 * 16 + hv c9) * 16 + hv c10) * 16 + hv c11 : Nat)⟩, ?_, ?_⟩
  · show parse_colour_hex ⟨[c0, c1, c2, c3, c4, c5, c6, c7, c8, c9, c10, c11]⟩ = _
    rw [parse_12]
    simp only [hexAcc, S0.1, S1.1, S2.1, S3.1, S4.1, S5.1, S6.1, S7.1, S8.1, S9.1,
      S10.1, S11.1]
    norm_num
  · have hn0 : (((hv c0 * 16 + hv c1) * 16 + hv c2) * 16 + hv c3) < 65536 := by
      have := S0.2.1; have := S1.2.1; have := S2.2.1; have := S3.2.1; omega
    have hn1 : (((hv c4 * 16 + hv c5) * 16 + hv c6) * 16 + hv c7) < 65536 := by
      have := S4.2.1; have := S5.2.1; have := S6.2.1; have := S7.2.1; omega
    have hn2 : (((hv c8 * 16 + hv c9) * 16 + hv c10) * 16 + hv c11) < 65536 := by
      have := S8.2.1; have := S9.2.1; have := S10.2.1; have := S11.2.1; omega
    show format_hsv_to_hex
        ((((hv c0 * 16 + hv c1) * 16 + hv c2) * 16 + hv c3 : Nat) : Int).toNat
        ((((hv c4 * 16 + hv c5) * 16 + hv c6) * 16 + hv c7 : Nat) : Int).toNat
        ((((hv c8 * 16 + hv c9) * 16 + hv c10) * 16 + hv c11 : Nat) : Int).toNat = _
    rw [Int.toNat_natCast, Int.toNat_natCast, Int.toNat_natCast]
    show (⟨pad04 (natToHex _) ++ pad04 (natToHex _) ++ pad04 (natToHex _)⟩ : String) = _
    rw [natToHex_char _ hn0, natToHex_char _ hn1, natToHex_char _ hn2]
    have d0 := S0.2.1; have d1 := S1.2.1; have d2 := S2.2.1; have d3 := S3.2.1
    have d4 := S4.2.1; have d5 := S5.2.1; have d6 := S6.2.1; have d7 := S7.2.1
    have d8 := S8.2.1; have d9 := S9.2.1; have d10 := S10.2.1; have d11 := S11.2.1
    rw [(by omega : (((hv c0 * 16 + hv c1) * 16 + hv c2) * 16 + hv c3) / 4096 % 16 = hv c0),
        (by omega : (((hv c0 * 16 + hv c1) * 16 + hv c2) * 16 + hv c3) / 256 % 16 = hv c1),
        (by omega : (((hv c0 * 16 + hv c1) * 16 + hv c2) * 16 + hv c3) / 16 % 16 = hv c2),
        (by omega : (((hv c0 * 16 + hv c1) * 16 + hv c2) * 16 + hv c3) % 16 = hv c3),
        (by omega : (((hv c4 * 16 + hv c5) * 16 + hv c6) * 16 + hv c7) / 4096 % 16 = hv c4),
        (by omega : (((hv c4 * 16 + hv c5) * 16 + hv c6) * 16 + hv c7) / 256 % 16 = hv c5),
        (by omega : (((hv c4 * 16 + hv c5) * 16 + hv c6) * 16 + hv c7) / 16 % 16 = hv c6),
        (by omega : (((hv c4 * 16 + hv c5) * 16 + hv c6) * 16 + hv c7) % 16 = hv c7),
        (by omega : (((hv c8 * 16 + hv c9) * 16 + hv c10) * 16 + hv c11) / 4096 % 16 = hv c8),
        (by omega : (((hv c8 * 16 + hv c9) * 16 + hv c10) * 16 + hv c11) / 256 % 16 = hv c9),
        (by omega : (((hv c8 * 16 + hv c9) * 16 + hv c10) * 16 + hv c11) / 16 % 16 = hv c10),
        (by omega : (((hv c8 * 16 + hv c9) * 16 + hv c10) * 16 + hv c11) % 16 = hv c11)]
    rw [S0.2.2, S1.2.2, S2.2.2, S3.2.2, S4.2.2, S5.2.2, S6.2.2, S7.2.2,
        S8.2.2, S9.2.2, S10.2.2, S11.2.2]
    rfl

/-- C5 (witness): the round trip is the identity on `"007801f40320"`. -/
theorem parse_format_roundtrip_lower_witness :
    ∃ x : Hsv, parse_colour_hex "007801f40320" = .ok x ∧
      format_hsv_to_hex x.h.toNat x.s.toNat x.v.toNat = "007801f40320" :=
  parse_format_roundtrip_lower_hex "007801f40320" (by decide) (by decide)

/-- C10: for all h, s, v in [0, 65535], parsing the formatted hex string
returns exactly the HSV (h, s, v), and the formatted string has exactly
12 characters. -/
theorem format_parse_roundtrip (h s v : Nat) (hh : h ≤ 65535) (hs : s ≤ 65535)
    (hv1 : v ≤ 65535) :
    parse_colour_hex (format_hsv_to_hex h s v) = .ok ⟨(h : Int), (s : Int), (v : Int)⟩ ∧
    (format_hsv_to_hex h s v).length = 12 := by
  have run : format_hsv_to_hex h s v =
      ⟨[Nat.digitChar (h / 4096 % 16), Nat.digitChar (h / 256 % 16),
        Nat.digitChar (h / 16 % 16), Nat.digitChar (h % 16),
        Nat.digitChar (s / 4096 % 16), Nat.digitChar (s / 256 % 16),
        Nat.digitChar (s / 16 % 16), Nat.digitChar (s % 16),
        Nat.digitChar (v / 4096 % 16), Nat.digitChar (v / 256 % 16),
        Nat.digitChar (v / 16 % 16), Nat.digitChar (v % 16)]⟩ := by
    show (⟨pad04 (natToHex h) ++ pad04 (natToHex s) ++ pad04 (natToHex v)⟩ : String) = _
    rw [natToHex_char h (by omega), natToHex_char s (by omega), natToHex_char v (by omega)]
    rfl
  constructor
  · rw [run, parse_12,
        hexAcc_quad _ _ _ _ (by omega) (by omega) (by omega) (by omega),
        hexAcc_quad _ _ _ _ (by omega) (by omega) (by omega) (by omega),
        hexAcc_quad _ _ _ _ (by omega) (by omega) (by omega) (by omega)]
    rw [(by omega : ((h / 4096 % 16 * 16 + h / 256 % 16) * 16 + h / 16 % 16) * 16 + h % 16 = h),
        (by omega : ((s / 4096 % 16 * 16 + s / 256 % 16) * 16 + s / 16 % 16) * 16 + s % 16 = s),
        (by omega : ((v / 4096 % 16 * 16 + v / 256 % 16) * 16 + v / 16 % 16) * 16 + v % 16 = v)]
  · rw [run]
    rfl

/-- C10 (witness): the round trip at (4660, 65535, 0). -/
theorem format_parse_roundtrip_witness :
    parse_colour_hex (format_hsv_to_hex 4660 65535 0) = .ok ⟨4660, 65535, 0⟩ ∧
    (format_hsv_to_hex 4660 65535 0).length = 12 :=
  format_parse_roundtrip 4660 65535 0 (by decide) (by decide) (by decide)
